import Mathlib

/-!
Verification of the EdgeChain IoT device configuration table
(`src/arduino/edgechain_iot/config.h`).

The header defines eight preprocessor constants: two BLE UUID strings,
two identity strings, two timing integers and two buffer-size integers.
Each constant is embedded below under its source name, and the header as
a whole is embedded as an ordered association list of (name, value)
defines, so that claims about uniqueness of definition and lookup can be
stated.
-/

/-- BLE service UUID string, from `config.h` line 11. -/
def BLE_SERVICE_UUID : String := "12345678-1234-5678-1234-56789abcdef0"

/-- BLE data characteristic UUID string, from `config.h` line 12. -/
def DATA_CHAR_UUID : String := "87654321-4321-8765-4321-fedcba987654"

/-- Device identity string, from `config.h` line 15. -/
def DEVICE_ID : String := "EDGECHAIN_DEMO_001"

/-- BLE advertised local name, from `config.h` line 16. -/
def BLE_LOCAL_NAME : String := "EdgeChain-Demo"

/-- Interval between sensor readings in milliseconds, from `config.h` line 19. -/
def READING_INTERVAL_MS : Nat := 5000

/-- Serial baud rate in bits per second, from `config.h` line 20. -/
def BAUD_RATE : Nat := 115200

/-- Small encoded-message buffer capacity in bytes, from `config.h` line 23. -/
def JSON_BUFFER_SIZE : Nat := 64

/-- Outbound payload buffer capacity in bytes, from `config.h` line 24. -/
def TX_PAYLOAD_MAX_SIZE : Nat := 256

/-- A configuration value is either a string constant or an integer constant. -/
inductive ConfigValue where
  | str : String → ConfigValue
  | nat : Nat → ConfigValue
deriving DecidableEq

/-- The configuration header as an ordered association list of its
`#define` directives, in source order (`config.h` lines 11-24). -/
def configDefines : List (String × ConfigValue) :=
  [ ("BLE_SERVICE_UUID", ConfigValue.str BLE_SERVICE_UUID),
    ("DATA_CHAR_UUID", ConfigValue.str DATA_CHAR_UUID),
    ("DEVICE_ID", ConfigValue.str DEVICE_ID),
    ("BLE_LOCAL_NAME", ConfigValue.str BLE_LOCAL_NAME),
    ("READING_INTERVAL_MS", ConfigValue.nat READING_INTERVAL_MS),
    ("BAUD_RATE", ConfigValue.nat BAUD_RATE),
    ("JSON_BUFFER_SIZE", ConfigValue.nat JSON_BUFFER_SIZE),
    ("TX_PAYLOAD_MAX_SIZE", ConfigValue.nat TX_PAYLOAD_MAX_SIZE) ]

/-- The eight configuration constant names. -/
inductive ConfigKey where
  | bleServiceUuid
  | dataCharUuid
  | deviceId
  | bleLocalName
  | readingIntervalMs
  | baudRate
  | jsonBufferSize
  | txPayloadMaxSize
deriving DecidableEq

/-- The source name of each configuration constant. -/
def keyName : ConfigKey → String
  | ConfigKey.bleServiceUuid => "BLE_SERVICE_UUID"
  | ConfigKey.dataCharUuid => "DATA_CHAR_UUID"
  | ConfigKey.deviceId => "DEVICE_ID"
  | ConfigKey.bleLocalName => "BLE_LOCAL_NAME"
  | ConfigKey.readingIntervalMs => "READING_INTERVAL_MS"
  | ConfigKey.baudRate => "BAUD_RATE"
  | ConfigKey.jsonBufferSize => "JSON_BUFFER_SIZE"
  | ConfigKey.txPayloadMaxSize => "TX_PAYLOAD_MAX_SIZE"

/-- The value of each configuration constant, as defined in `config.h`. -/
def configValue : ConfigKey → ConfigValue
  | ConfigKey.bleServiceUuid => ConfigValue.str BLE_SERVICE_UUID
  | ConfigKey.dataCharUuid => ConfigValue.str DATA_CHAR_UUID
  | ConfigKey.deviceId => ConfigValue.str DEVICE_ID
  | ConfigKey.bleLocalName => ConfigValue.str BLE_LOCAL_NAME
  | ConfigKey.readingIntervalMs => ConfigValue.nat READING_INTERVAL_MS
  | ConfigKey.baudRate => ConfigValue.nat BAUD_RATE
  | ConfigKey.jsonBufferSize => ConfigValue.nat JSON_BUFFER_SIZE
  | ConfigKey.txPayloadMaxSize => ConfigValue.nat TX_PAYLOAD_MAX_SIZE

/-- A character is a hexadecimal digit (either case). -/
def isHexDigitChar (c : Char) : Bool :=
  (('0' ≤ c) && (c ≤ '9')) || (('a' ≤ c) && (c ≤ 'f')) || (('A' ≤ c) && (c ≤ 'F'))

/-- A string is a canonical hyphenated 8-4-4-4-12 UUID: exactly 36
characters, hyphens at (0-based) positions 8, 13, 18 and 23, and
hexadecimal digits at every other position. -/
def isCanonicalUuid (s : String) : Bool :=
  (s.length == 36) &&
  (List.range 36).all (fun i =>
    let c := s.data.getD i ' '
    if i == 8 || i == 13 || i == 18 || i == 23 then c == '-' else isHexDigitChar c)

/-- Numeric value of one hexadecimal digit character. -/
def hexDigitVal (c : Char) : Nat :=
  if ('0' ≤ c) && (c ≤ '9') then c.toNat - '0'.toNat
  else if ('a' ≤ c) && (c ≤ 'f') then c.toNat - 'a'.toNat + 10
  else if ('A' ≤ c) && (c ≤ 'F') then c.toNat - 'A'.toNat + 10
  else 0

/-- The 128-bit integer value denoted by a canonical UUID string: its 32
hexadecimal digits read big-endian, hyphens skipped. -/
def uuidValue (s : String) : Nat :=
  (s.data.filter (fun c => c != '-')).foldl (fun a c => a * 16 + hexDigitVal c) 0

/-- A string contains no uppercase ASCII letters. -/
def noUppercaseAscii (s : String) : Bool :=
  s.data.all (fun c => !(('A' ≤ c) && (c ≤ 'Z')))

/-- The set of standard asynchronous serial baud rates.
Modelled from the spec: the spec's "standard serial-rate set" names a set
that is not defined anywhere in the repository; this list is the
conventional UART rate family. -/
def standardSerialRates : List Nat :=
  [300, 600, 1200, 2400, 4800, 9600, 14400, 19200, 28800, 38400,
   57600, 115200, 230400, 460800, 921600]

/-- C1: each of the two UUID constants is exactly 36 characters long, in
canonical hyphenated 8-4-4-4-12 hexadecimal form: hyphens at positions
8, 13, 18 and 23, hexadecimal digits everywhere else. -/
theorem uuid_constants_canonical :
    isCanonicalUuid BLE_SERVICE_UUID = true ∧
    isCanonicalUuid DATA_CHAR_UUID = true := by
  decide

/-- C2: the service UUID and the characteristic UUID are distinct
strings, and they denote distinct 128-bit UUID values. -/
theorem uuid_constants_distinct :
    BLE_SERVICE_UUID ≠ DATA_CHAR_UUID ∧
    uuidValue BLE_SERVICE_UUID ≠ uuidValue DATA_CHAR_UUID := by
  decide

/-- C3: both buffer capacity constants are positive, and the outbound
payload capacity is at least the small encoded-message capacity
(256 ≥ 64). -/
theorem buffer_sizes_positive_and_ordered :
    0 < JSON_BUFFER_SIZE ∧ 0 < TX_PAYLOAD_MAX_SIZE ∧
    JSON_BUFFER_SIZE ≤ TX_PAYLOAD_MAX_SIZE ∧
    TX_PAYLOAD_MAX_SIZE = 256 ∧ JSON_BUFFER_SIZE = 64 := by
  decide

/-- C4: the reading interval constant is a positive integer equal to
5000 milliseconds. -/
theorem reading_interval_positive_5000 :
    0 < READING_INTERVAL_MS ∧ READING_INTERVAL_MS = 5000 := by
  decide

/-- C5: the serial baud rate constant is a positive integer belonging to
the standard serial-rate set, and equals 115200. -/
theorem baud_rate_standard_115200 :
    0 < BAUD_RATE ∧ BAUD_RATE ∈ standardSerialRates ∧ BAUD_RATE = 115200 := by
  decide

/-- C6: both identity/name string constants are non-empty. -/
theorem identity_strings_nonempty :
    0 < DEVICE_ID.length ∧ 0 < BLE_LOCAL_NAME.length := by
  decide

/-- C7: every constant of the configuration table is immutable and
defined exactly once before any use: the list of defined names has no
duplicates, and looking a name up (the only operation the program
offers) always yields the one value the table defines for it — there is
no mutating operation, so every access returns that same fixed value. -/
theorem config_defined_once_immutable :
    (configDefines.map Prod.fst).Nodup ∧
    ∀ p ∈ configDefines, configDefines.lookup p.1 = some p.2 := by
  decide

/-- C8: named lookup of any of the eight configuration constants cannot
fail: for every key, lookup in the table succeeds and deterministically
returns the same fixed value `configValue k` on every access. -/
theorem config_lookup_total_deterministic :
    ∀ k : ConfigKey, configDefines.lookup (keyName k) = some (configValue k) := by
  intro k
  cases k <;> rfl

/-- C9: neither UUID constant contains an uppercase ASCII letter: every
hexadecimal digit in both UUID strings is lowercase (or a decimal
digit). -/
theorem uuid_constants_lowercase :
    noUppercaseAscii BLE_SERVICE_UUID = true ∧
    noUppercaseAscii DATA_CHAR_UUID = true := by
  decide

/-- C10: every numeric configuration constant fits in a signed 32-bit
integer (is below 2^31), and only the baud rate exceeds the signed
16-bit range (32767). -/
theorem numeric_constants_ranges :
    READING_INTERVAL_MS < 2 ^ 31 ∧ BAUD_RATE < 2 ^ 31 ∧
    JSON_BUFFER_SIZE < 2 ^ 31 ∧ TX_PAYLOAD_MAX_SIZE < 2 ^ 31 ∧
    32767 < BAUD_RATE ∧
    READING_INTERVAL_MS ≤ 32767 ∧ JSON_BUFFER_SIZE ≤ 32767 ∧
    TX_PAYLOAD_MAX_SIZE ≤ 32767 := by
  decide
